import Mathlib

/-!
Verification of the birthstar program (`birthstar.py`): a shallow embedding
of its temporal-distance model, its `Star` entity and its nearest-star
catalog query, together with theorems settling the specified properties.

Conventions of the embedding:
  · Python floats are modelled as exact rationals (`ℚ`).
  · A calendar date is a number of days since an arbitrary epoch (`ℤ`);
    a wall-clock datetime moment is a rational number of days since that
    epoch, and `.date()` truncation is `Int.floor`.
  · The source's empty-string convention marks an absent optional field;
    the numeric optional `color` field (string or float in the source) is
    an `Option ℚ`.
  · The sqlite query `SELECT * FROM stars ORDER BY ABS(? - distance) LIMIT 1`
    is modelled as the first record of the catalog list minimizing the
    absolute difference to the bound target value.
  · A Python `KeyError` (dict lookup miss) or crash on `fetchone()`
    returning no row is modelled as `Option.none`.
-/

namespace Birthstar

/-- Number of seconds in 365.25 days (one Julian year); `SECS_IN_YEAR` in the source. -/
def SECS_IN_YEAR : ℚ := 31557600

/-- Light-years per parsec; `LIGHT_YEARS_IN_1_PARSEC` in the source. -/
def LIGHT_YEARS_IN_1_PARSEC : ℚ := 3.26163344

/-- Standard constellation abbreviations; the dict `CONST_ABBREV` in the source,
embedded as an association list in the source's iteration order (the value for
key "Boo" reproduces the source file's bytes verbatim). -/
def CONST_ABBREV : List (String × String) :=
  [ ("And", "Andromeda"),
    ("Ant", "Antlia"),
    ("Aps", "Apus"),
    ("Aqr", "Aquarius"),
    ("Aql", "Aquila"),
    ("Ara", "Ara"),
    ("Ari", "Aries"),
    ("Aur", "Auriga"),
    ("Boo", "Bo√∂tes"),
    ("Cae", "Caelum"),
    ("Cam", "Camelopardalis"),
    ("Cnc", "Cancer"),
    ("CVn", "Canes Venatici"),
    ("CMa", "Canis Major"),
    ("CMi", "Canis Minor"),
    ("Cap", "Capricornus"),
    ("Car", "Carina"),
    ("Cas", "Cassiopeia"),
    ("Cen", "Centaurus"),
    ("Cep", "Cepheus"),
    ("Cet", "Cetus"),
    ("Cha", "Chamaeleon"),
    ("Cir", "Circinus"),
    ("Col", "Columba"),
    ("Com", "Coma Berenices"),
    ("CrA", "Corona Australis"),
    ("CrB", "Corona Borealis"),
    ("Crv", "Corvus"),
    ("Crt", "Crater"),
    ("Cru", "Crux"),
    ("Cyg", "Cygnus"),
    ("Del", "Delphinus"),
    ("Dor", "Dorado"),
    ("Dra", "Draco"),
    ("Equ", "Equuleus"),
    ("Eri", "Eridanus"),
    ("For", "Fornax"),
    ("Gem", "Gemini"),
    ("Gru", "Grus"),
    ("Her", "Hercules"),
    ("Hor", "Horologium"),
    ("Hya", "Hydra"),
    ("Hyi", "Hydrus"),
    ("Ind", "Indus"),
    ("Lac", "Lacerta"),
    ("Leo", "Leo"),
    ("LMi", "Leo Minor"),
    ("Lep", "Lepus"),
    ("Lib", "Libra"),
    ("Lup", "Lupus"),
    ("Lyn", "Lynx"),
    ("Lyr", "Lyra"),
    ("Men", "Mensa"),
    ("Mic", "Microscopium"),
    ("Mon", "Monoceros"),
    ("Mus", "Musca"),
    ("Nor", "Norma"),
    ("Oct", "Octans"),
    ("Oph", "Ophiuchus"),
    ("Ori", "Orion"),
    ("Pav", "Pavo"),
    ("Peg", "Pegasus"),
    ("Per", "Perseus"),
    ("Phe", "Phoenix"),
    ("Pic", "Pictor"),
    ("Psc", "Pisces"),
    ("PsA", "Piscis Austrinus"),
    ("Pup", "Puppis"),
    ("Pyx", "Pyxis"),
    ("Ret", "Reticulum"),
    ("Sge", "Sagitta (not to be confused with Sagittarius)"),
    ("Sgr", "Sagittarius"),
    ("Sco", "Scorpius"),
    ("Scl", "Sculptor"),
    ("Sct", "Scutum"),
    ("Ser", "Serpens"),
    ("Sex", "Sextans"),
    ("Tau", "Taurus"),
    ("Tel", "Telescopium"),
    ("Tri", "Triangulum"),
    ("TrA", "Triangulum Australe"),
    ("Tuc", "Tucana"),
    ("UMa", "Ursa Major"),
    ("UMi", "Ursa Minor"),
    ("Vel", "Vela"),
    ("Vir", "Virgo"),
    ("Vol", "Volans"),
    ("Vul", "Vulpecula") ]

/-- Raw fields of one catalog row, in the argument order of `Star.__init__`
in the source: `(database_id, hip_id, gl_id, proper_name, distance,
magnitude, color, constellation)`. -/
structure StarRecord where
  database_id : String
  hip_id : String
  gl_id : String
  proper_name : String
  distance : ℚ
  magnitude : ℚ
  color : Option ℚ
  constellation : String
deriving DecidableEq

/-- State stored by a constructed `Star` object. -/
structure Star where
  database_id : String
  hip_id : String
  gl_id : String
  proper_name : String
  distance : ℚ
  magnitude : ℚ
  color : Option ℚ
  constellation : String
deriving DecidableEq

/-- Embedding of `Star.__init__`: stores the record's fields, and namespaces a
known HIP id by prefixing the string "HIP " (an absent HIP id stays empty). -/
def Star.ofRecord (r : StarRecord) : Star :=
  { database_id := r.database_id
    hip_id := if r.hip_id ≠ "" then ("HIP " ++ r.hip_id) else ("")
    gl_id := r.gl_id
    proper_name := r.proper_name
    distance := r.distance
    magnitude := r.magnitude
    color := r.color
    constellation := r.constellation }

/-- Embedding of `Star.get_color`: classify the B-V color index, defaulting to
red when the color is absent. -/
def Star.get_color (s : Star) : String :=
  match s.color with
  | some c => if c < 0.35 then ("blue") else if c < 0.8 then ("yellow") else ("red")
  | none => "red"

/-- Embedding of `Star.has_proper_name`. -/
def Star.has_proper_name (s : Star) : Bool :=
  s.proper_name != ""

/-- Embedding of `Star.has_constellation`. -/
def Star.has_constellation (s : Star) : Bool :=
  s.constellation != ""

/-- Embedding of `Star.get_constellation`: the dict access
`CONST_ABBREV[self._constellation]`; a `KeyError` is `none`. -/
def Star.get_constellation (s : Star) : Option String :=
  List.lookup s.constellation CONST_ABBREV

/-- Embedding of `Star.is_visible`: apparent magnitude strictly below 6.5. -/
def Star.is_visible (s : Star) : Bool :=
  decide (s.magnitude < 6.5)

/-- Embedding of `Star.get_identifier`: the (already namespaced) HIP id when
known, otherwise the Gliese id. -/
def Star.get_identifier (s : Star) : String :=
  if s.hip_id ≠ "" then s.hip_id else s.gl_id

/-- Embedding of `Star.get_distance_in_lightyears`. -/
def Star.get_distance_in_lightyears (s : Star) : ℚ :=
  s.distance * LIGHT_YEARS_IN_1_PARSEC

/-- Embedding of `years_since_date`: the timedelta between today
(`datetime.now().date()`, a whole number of days) and `date`, converted to
seconds by `total_seconds()` and divided by `SECS_IN_YEAR`. -/
def years_since_date (nowDate : ℤ) (date : ℤ) : ℚ :=
  (((nowDate - date) * 86400 : ℤ) : ℚ) / SECS_IN_YEAR

/-- Embedding of `Star.when_will_light_hit`: remaining light-years times
365.25 days are added to the current moment `nowMoment`, and the result is
truncated to a date; `years_since_date` is called with today,
`⌊nowMoment⌋`, as the source's inner `datetime.now().date()`. -/
def Star.when_will_light_hit (s : Star) (nowMoment : ℚ) (emit_date : ℤ) : ℤ :=
  let light_years_traveled := years_since_date ⌊nowMoment⌋ emit_date
  ⌊nowMoment + (s.get_distance_in_lightyears - light_years_traveled) * (365.25 : ℚ)⌋

/-- Semantics of the sqlite query
`SELECT * FROM stars ORDER BY ABS(? - distance) LIMIT 1`: the first record of
the catalog minimizing the absolute difference between its `distance` field
and the bound target value; `none` on an empty table (where `fetchone()`
yields no row and the source crashes unpacking it). -/
def nearestRecord (target : ℚ) : List StarRecord → Option StarRecord
  | [] => none
  | r :: rs =>
    match nearestRecord target rs with
    | none => some r
    | some b => if |r.distance - target| ≤ |b.distance - target| then some r else some b

/-- Embedding of `get_star_from_years`: converts the light-year target to
parsecs by dividing by `LIGHT_YEARS_IN_1_PARSEC`, queries the catalog for the
nearest record and materializes it as a `Star`. -/
def get_star_from_years (light_years : ℚ) (catalog : List StarRecord) : Option Star :=
  (nearestRecord (light_years / LIGHT_YEARS_IN_1_PARSEC) catalog).map Star.ofRecord

/-- Modelled from the spec: `yearsSince(date)` as the spec's section 4.1 words
it, the elapsed time between `date` (taken at its midnight) and the current
wall-clock moment `nowMoment` itself, in seconds, divided by the Julian-year
constant. Used only to compare the spec's wording with `years_since_date`. -/
def yearsSinceSpec (nowMoment : ℚ) (date : ℤ) : ℚ :=
  ((nowMoment - (date : ℚ)) * 86400) / SECS_IN_YEAR

/-- Catalog row fixture used for concrete instances. -/
def baseRecord : StarRecord :=
  { database_id := "1"
    hip_id := ""
    gl_id := "Gl 1"
    proper_name := ""
    distance := 1
    magnitude := 5
    color := none
    constellation := "" }

/-- Star fixture used for concrete instances. -/
def baseStar : Star :=
  Star.ofRecord baseRecord

/-- Three-record catalog with parsec distances 1, 2 and 5. -/
def threeCatalog : List StarRecord :=
  [ { baseRecord with distance := 1 },
    { baseRecord with distance := 2 },
    { baseRecord with distance := 5 } ]

/-- Helper: a lookup in an association list of strings succeeds exactly when
the key occurs among the list's keys. -/
theorem lookup_isSome_iff (code : String) (l : List (String × String)) :
    (List.lookup code l).isSome ↔ code ∈ l.map Prod.fst := by
  induction l with
  | nil => simp [List.lookup]
  | cons p t ih =>
    obtain ⟨k, v⟩ := p
    by_cases h : code = k
    · subst h
      simp [List.lookup]
    · have hbeq : (code == k) = false := beq_eq_false_iff_ne.mpr h
      simp [List.lookup, hbeq, h, ih]

/-- C5: `get_star_from_years` fails (models `NotFound`) on an empty catalog,
for every target light-year distance. -/
theorem get_star_from_years_empty (light_years : ℚ) :
    get_star_from_years light_years [] = none := rfl

/-- C8: `is_visible` is true exactly when the apparent magnitude is strictly
less than 6.5; magnitude 6.4 gives true while 6.5 and 6.6 give false. -/
theorem is_visible_spec :
    (∀ s : Star, s.is_visible = true ↔ s.magnitude < 6.5) ∧
    ({ baseStar with magnitude := 6.4 } : Star).is_visible = true ∧
    ({ baseStar with magnitude := 6.5 } : Star).is_visible = false ∧
    ({ baseStar with magnitude := 6.6 } : Star).is_visible = false := by
  refine ⟨fun s => ?_, by norm_num [Star.is_visible], by norm_num [Star.is_visible],
    by norm_num [Star.is_visible]⟩
  simp [Star.is_visible]

/-- C4: for a star with a constellation code recorded, the constellation
lookup succeeds exactly when the code is one of the 88 recognized
abbreviations of the table, and fails (models `KeyError`) otherwise. -/
theorem get_constellation_spec (s : Star) (h : s.has_constellation = true) :
    CONST_ABBREV.length = 88 ∧
    (s.get_constellation.isSome ↔ s.constellation ∈ CONST_ABBREV.map Prod.fst) :=
  ⟨by decide, lookup_isSome_iff s.constellation CONST_ABBREV⟩

/-- Star fixture located in Orion. -/
def oriStar : Star := { baseStar with constellation := "Ori" }

/-- Witness for `get_constellation_spec` at a star with code "Ori". -/
theorem get_constellation_spec_witness :
    oriStar.has_constellation = true ∧
    (CONST_ABBREV.length = 88 ∧
      (oriStar.get_constellation.isSome ↔ oriStar.constellation ∈ CONST_ABBREV.map Prod.fst)) :=
  ⟨by decide, get_constellation_spec oriStar (by decide)⟩

/-- C10: a star with no constellation recorded (`has_constellation` false,
so the stored code is the empty string) makes `get_constellation` fail with
a `KeyError` (modelled as `none`) rather than return an empty string, since
the empty string is not among the table's keys. -/
theorem get_constellation_empty (s : Star) (h : s.has_constellation = false) :
    s.get_constellation = none ∧ "" ∉ CONST_ABBREV.map Prod.fst := by
  have hs : s.constellation = "" := by
    simpa [Star.has_constellation] using h
  refine ⟨?_, by decide⟩
  rw [Star.get_constellation, hs]
  decide

/-- Witness for `get_constellation_empty` at the fixture star, whose
constellation field is empty. -/
theorem get_constellation_empty_witness :
    baseStar.has_constellation = false ∧
    (baseStar.get_constellation = none ∧ "" ∉ CONST_ABBREV.map Prod.fst) :=
  ⟨by decide, get_constellation_empty baseStar (by decide)⟩

/-- C9: converting a non-negative light-year value to parsecs as
`get_star_from_years` does (division by the constant) and back to
light-years as `get_distance_in_lightyears` does (multiplication by the
constant) is the identity over exact arithmetic. -/
theorem lightyear_parsec_roundtrip (s : Star) (x : ℚ) (h : 0 ≤ x) :
    ({ s with distance := x / LIGHT_YEARS_IN_1_PARSEC } : Star).get_distance_in_lightyears = x := by
  have hc : LIGHT_YEARS_IN_1_PARSEC ≠ 0 := by norm_num [LIGHT_YEARS_IN_1_PARSEC]
  simp [Star.get_distance_in_lightyears]
  exact div_mul_cancel₀ x hc

/-- Witness for `lightyear_parsec_roundtrip` at 3 light-years. -/
theorem lightyear_parsec_roundtrip_witness :
    (0 : ℚ) ≤ 3 ∧
    ({ baseStar with distance := (3 : ℚ) / LIGHT_YEARS_IN_1_PARSEC } : Star).get_distance_in_lightyears = 3 :=
  ⟨by norm_num, lightyear_parsec_roundtrip baseStar 3 (by norm_num)⟩

/-- C3: `get_color` classifies the color index as blue exactly when it is
present and below 0.35, yellow exactly when it is present and in
[0.35, 0.8), and red otherwise (absence included); index 0.35 gives
yellow and 0.8 gives red. -/
theorem get_color_spec :
    (∀ s : Star,
      (s.get_color = "blue" ↔ ∃ c, s.color = some c ∧ c < 0.35) ∧
      (s.get_color = "yellow" ↔ ∃ c, s.color = some c ∧ 0.35 ≤ c ∧ c < 0.8) ∧
      (s.get_color = "red" ↔ ∀ c, s.color = some c → 0.8 ≤ c)) ∧
    ({ baseStar with color := some 0.35 } : Star).get_color = "yellow" ∧
    ({ baseStar with color := some 0.8 } : Star).get_color = "red" := by
  refine ⟨fun s => ?_, by norm_num [Star.get_color], by norm_num [Star.get_color]⟩
  obtain ⟨db, hip, gl, pn, d, m, c, con⟩ := s
  cases c with
  | none => simp [Star.get_color]
  | some c =>
    by_cases h1 : c < 0.35
    · have h2 : ¬ (0.35 : ℚ) ≤ c := not_le.mpr h1
      have h3 : c < 0.8 := by linarith
      simp [Star.get_color, h1, h2, h3]
    · by_cases h2 : c < 0.8
      · have h3 : ¬ (0.8 : ℚ) ≤ c := not_le.mpr h2
        simp [Star.get_color, h1, h2, not_lt.mp h1, h3]
      · simp [Star.get_color, h1, h2, not_lt.mp h2]

/-- Helper: prefixing a string with "HIP " never yields the empty string. -/
theorem hip_ne_empty (x : String) : ("HIP " ++ x) ≠ "" := by
  intro h
  have hl := congrArg String.length h
  simp [String.length_append] at hl
  exact absurd hl.1 (by decide)

/-- C7: `get_identifier` returns the namespaced HIP identifier
("HIP " followed by the id) when the HIP id is present, and the Gliese
identifier unchanged when it is absent; in particular HIP id "32349" gives
"HIP " ++ "32349" and an absent HIP id with Gliese id "Gl 244" gives
"Gl 244". -/
theorem get_identifier_spec :
    (∀ r : StarRecord,
      (r.hip_id ≠ "" → (Star.ofRecord r).get_identifier = "HIP " ++ r.hip_id) ∧
      (r.hip_id = "" → (Star.ofRecord r).get_identifier = r.gl_id)) ∧
    (Star.ofRecord { baseRecord with hip_id := "32349" }).get_identifier = "HIP " ++ "32349" ∧
    (Star.ofRecord { baseRecord with hip_id := "", gl_id := "Gl 244" }).get_identifier = "Gl 244" := by
  refine ⟨fun r => ⟨fun h => ?_, fun h => ?_⟩, by decide, by decide⟩
  · simp [Star.ofRecord, Star.get_identifier, h, hip_ne_empty]
  · simp [Star.ofRecord, Star.get_identifier, h]

/-- Witness for `get_identifier_spec` at a record with HIP id "1". -/
theorem get_identifier_spec_witness :
    ({ baseRecord with hip_id := "1" } : StarRecord).hip_id ≠ "" ∧
    (Star.ofRecord { baseRecord with hip_id := "1" }).get_identifier =
      "HIP " ++ ({ baseRecord with hip_id := "1" } : StarRecord).hip_id :=
  ⟨by decide, (get_identifier_spec.1 { baseRecord with hip_id := "1" }).1 (by decide)⟩

/-- C2: `when_will_light_hit` adds the remaining light-years (distance in
light-years minus the years since the emit date) times 365.25 days to the
current moment and truncates to a date; when the remainder is negative the
returned date is today or earlier. -/
theorem when_will_light_hit_spec (s : Star) (nowMoment : ℚ) (emit_date : ℤ) :
    s.when_will_light_hit nowMoment emit_date =
      ⌊nowMoment + (s.get_distance_in_lightyears -
        years_since_date ⌊nowMoment⌋ emit_date) * (365.25 : ℚ)⌋ ∧
    (s.get_distance_in_lightyears - years_since_date ⌊nowMoment⌋ emit_date < 0 →
      s.when_will_light_hit nowMoment emit_date ≤ ⌊nowMoment⌋) := by
  have heq : s.when_will_light_hit nowMoment emit_date =
      ⌊nowMoment + (s.get_distance_in_lightyears -
        years_since_date ⌊nowMoment⌋ emit_date) * (365.25 : ℚ)⌋ := rfl
  refine ⟨heq, fun hneg => ?_⟩
  rw [heq]
  have hmul : (s.get_distance_in_lightyears -
      years_since_date ⌊nowMoment⌋ emit_date) * (365.25 : ℚ) ≤ 0 :=
    mul_nonpos_of_nonpos_of_nonneg (le_of_lt hneg) (by norm_num)
  exact Int.floor_le_floor (by linarith)

/-- Witness for `when_will_light_hit_spec`: the fixture star at 1 parsec,
with the emit date 10000 days in the past, has negative remaining
light-years, and the projected arrival date is not after today. -/
theorem when_will_light_hit_spec_witness :
    (baseStar.get_distance_in_lightyears -
      years_since_date ⌊(0 : ℚ)⌋ (-10000) < 0) ∧
    baseStar.when_will_light_hit 0 (-10000) ≤ ⌊(0 : ℚ)⌋ := by
  have h : baseStar.get_distance_in_lightyears -
      years_since_date ⌊(0 : ℚ)⌋ (-10000) < 0 := by
    norm_num [baseStar, baseRecord, Star.ofRecord, Star.get_distance_in_lightyears,
      years_since_date, SECS_IN_YEAR, LIGHT_YEARS_IN_1_PARSEC, Int.floor_zero]
  exact ⟨h, (when_will_light_hit_spec baseStar 0 (-10000)).2 h⟩

/-- Counterexample to C6: at the current wall-clock moment half a day past
midnight of day 0 (so today is day 0) and with the queried date also day 0,
`years_since_date` returns 0, while the elapsed time from that date to the
current wall-clock moment itself is 43200 seconds, a positive number of
Julian years. -/
theorem years_since_date_cex :
    years_since_date ⌊(1 / 2 : ℚ)⌋ 0 ≠ yearsSinceSpec (1 / 2) 0 := by
  have hf : ⌊(1 / 2 : ℚ)⌋ = 0 := by norm_num
  rw [hf]
  norm_num [years_since_date, yearsSinceSpec, SECS_IN_YEAR]

/-- C6 (amended): `years_since_date` returns the elapsed time between the
date and the current date (wall-clock now truncated to whole days),
expressed in Julian years of 365.25 days, and is negative when the
date is strictly after the current date. -/
theorem years_since_date_amended (nowDate date : ℤ) :
    years_since_date nowDate date = ((nowDate : ℚ) - (date : ℚ)) / 365.25 ∧
    (nowDate < date → years_since_date nowDate date < 0) := by
  have heq : years_since_date nowDate date = ((nowDate : ℚ) - (date : ℚ)) / 365.25 := by
    simp only [years_since_date, SECS_IN_YEAR]
    push_cast
    rw [div_eq_div_iff (by norm_num) (by norm_num)]
    ring
  refine ⟨heq, fun h => ?_⟩
  rw [heq]
  apply div_neg_of_neg_of_pos
  · have hc : (nowDate : ℚ) < (date : ℚ) := by exact_mod_cast h
    linarith
  · norm_num

/-- Witness for `years_since_date_amended`: with today day 0 and the date
day 1 (tomorrow), the result is negative. -/
theorem years_since_date_amended_witness :
    ((0 : ℤ) < 1) ∧ years_since_date 0 1 < 0 :=
  ⟨by decide, (years_since_date_amended 0 1).2 (by decide)⟩

/-- Helper: unfolding equation of `nearestRecord` on a non-empty catalog. -/
theorem nearestRecord_cons (target : ℚ) (r : StarRecord) (rs : List StarRecord) :
    nearestRecord target (r :: rs) =
      match nearestRecord target rs with
      | none => some r
      | some b => if |r.distance - target| ≤ |b.distance - target| then some r else some b := rfl

/-- Helper: on a non-empty catalog, `nearestRecord` returns a member of the
catalog whose distance minimizes the absolute difference to the target. -/
theorem nearestRecord_spec (target : ℚ) (l : List StarRecord) (h : l ≠ []) :
    ∃ r, r ∈ l ∧ nearestRecord target l = some r ∧
      ∀ r' ∈ l, |r.distance - target| ≤ |r'.distance - target| := by
  induction l with
  | nil => exact absurd rfl h
  | cons a t ih =>
    cases t with
    | nil =>
      refine ⟨a, by simp, rfl, ?_⟩
      intro r' hr'
      have : r' = a := by simpa using hr'
      subst this
      exact le_refl _
    | cons b t2 =>
      obtain ⟨r, hrmem, hreq, hrmin⟩ := ih (by simp)
      by_cases hle : |a.distance - target| ≤ |r.distance - target|
      · refine ⟨a, by simp, ?_, ?_⟩
        · rw [nearestRecord_cons, hreq]
          simp [hle]
        · intro r' hr'
          rcases List.mem_cons.mp hr' with h1 | h2
          · subst h1
            exact le_refl _
          · exact le_trans hle (hrmin r' h2)
      · refine ⟨r, List.mem_cons_of_mem _ hrmem, ?_, ?_⟩
        · rw [nearestRecord_cons, hreq]
          simp [hle]
        · intro r' hr'
          rcases List.mem_cons.mp hr' with h1 | h2
          · subst h1
            exact (not_le.mp hle).le
          · exact hrmin r' h2

/-- C1: on a non-empty catalog, `get_star_from_years` converts the target
from light-years to parsecs by dividing by `LIGHT_YEARS_IN_1_PARSEC` and
returns a `Star` built from a catalog record whose recorded parsec distance
minimizes the absolute difference to that target; on the three-record
catalog with distances 1, 2 and 5 and target `2 * LIGHT_YEARS_IN_1_PARSEC`
light-years it returns the record with distance 2. -/
theorem get_star_from_years_nearest :
    (∀ (light_years : ℚ) (catalog : List StarRecord), catalog ≠ [] →
      ∃ r, r ∈ catalog ∧
        get_star_from_years light_years catalog = some (Star.ofRecord r) ∧
        ∀ r' ∈ catalog,
          |r.distance - light_years / LIGHT_YEARS_IN_1_PARSEC| ≤
            |r'.distance - light_years / LIGHT_YEARS_IN_1_PARSEC|) ∧
    (get_star_from_years (2 * LIGHT_YEARS_IN_1_PARSEC) threeCatalog).map Star.distance = some 2 := by
  constructor
  · intro ly catalog hne
    obtain ⟨r, hmem, heq, hmin⟩ := nearestRecord_spec (ly / LIGHT_YEARS_IN_1_PARSEC) catalog hne
    exact ⟨r, hmem, by simp [get_star_from_years, heq], hmin⟩
  · have hc : LIGHT_YEARS_IN_1_PARSEC ≠ 0 := by norm_num [LIGHT_YEARS_IN_1_PARSEC]
    have ht : 2 * LIGHT_YEARS_IN_1_PARSEC / LIGHT_YEARS_IN_1_PARSEC = (2 : ℚ) :=
      mul_div_cancel_right₀ 2 hc
    simp only [get_star_from_years, threeCatalog, ht]
    norm_num [nearestRecord, Star.ofRecord]

/-- Witness for `get_star_from_years_nearest` on the one-record catalog. -/
theorem get_star_from_years_nearest_witness :
    ∃ r, r ∈ [baseRecord] ∧
      get_star_from_years 0 [baseRecord] = some (Star.ofRecord r) ∧
      ∀ r' ∈ [baseRecord],
        |r.distance - 0 / LIGHT_YEARS_IN_1_PARSEC| ≤
          |r'.distance - 0 / LIGHT_YEARS_IN_1_PARSEC| :=
  get_star_from_years_nearest.1 0 [baseRecord] (by simp)

end Birthstar
